import Mathlib

/-!
Verification of the trend-driven Google Ads campaign provisioning service.

This file gives a shallow embedding of the core modules —
`articles.service` (relevance scorer and trend matcher),
`google-ads.service` (five-step provisioning saga, rollback coordinator,
error classifier) and `campaigns.service` (campaign lifecycle registry) —
as executable Lean definitions, and proves the specified behavioural
properties about them.

JavaScript-specific semantics (regex whitespace split producing empty
tokens, truthiness of `||` on empty strings, `Array.prototype.sort`
stability, `Map` iteration with same-key deletion) are modelled
explicitly where they matter.
-/

set_option maxRecDepth 4000

/-! ### JavaScript string primitives -/

/-- Substring test on character lists: JS `haystack.includes(needle)`.
The empty needle is contained in every string. -/
def listContains (needle : List Char) : List Char → Bool
  | [] => needle.isEmpty
  | c :: t => needle.isPrefixOf (c :: t) || listContains needle t

/-- JS `s.includes(sub)`. -/
def jsIncludes (s sub : String) : Bool :=
  listContains sub.data s.data

/-- JS `s.toLowerCase()` under the simple per-character folding the spec
asks for. -/
def jsToLower (s : String) : String :=
  ⟨s.data.map Char.toLower⟩

mutual

/-- Accumulating state of JS `s.split(/\s+/)`: building a token. -/
def splitWsGo : List Char → List Char → List (List Char)
  | [], acc => [acc.reverse]
  | c :: cs, acc =>
    if c.isWhitespace then acc.reverse :: splitWsSkip cs
    else splitWsGo cs (c :: acc)

/-- Accumulating state of JS `s.split(/\s+/)`: inside a whitespace run. -/
def splitWsSkip : List Char → List (List Char)
  | [] => [[]]
  | c :: cs => if c.isWhitespace then splitWsSkip cs else splitWsGo cs [c]

end

/-- JS `s.split(/\s+/)`.  Faithful to the JS corner cases: the empty
string yields `[""]`, and leading/trailing whitespace yields empty
tokens at the ends. -/
def jsSplitWs (s : String) : List String :=
  (splitWsGo s.data []).map List.asString

/-- JS `x || default` for an optional string field: `null`, `undefined`
and the empty string all fall through to the default. -/
def jsStringOr (o : Option String) (d : String) : String :=
  match o with
  | some s => if s = "" then d else s
  | none => d

/-- JS `x || null` for an optional string: the empty string collapses to
`null`. -/
def jsStringOrNull (o : Option String) : Option String :=
  match o with
  | some s => if s = "" then none else some s
  | none => none

/-- JS `x || default` for an optional numeric field: `0` is falsy and
falls through to the default. -/
def jsNatOr (o : Option Nat) (d : Nat) : Nat :=
  match o with
  | some n => if n = 0 then d else n
  | none => d

/-! ### Data model (`common/interfaces`) -/

/-- A source article attached to a trending search
(`TrendArticle` in `common/interfaces`). -/
structure TrendArticle where
  title : String
  url : String
  source : String
  snippet : String
deriving Repr, DecidableEq

/-- `TrendingSearch` from `common/interfaces`. -/
structure TrendingSearch where
  keyword : String
  traffic : String
  relatedQueries : List String
  articles : List TrendArticle
deriving Repr, DecidableEq

/-- `Article` from `common/interfaces`; `publishedAt` is the JS
epoch-milliseconds value of the `Date`. -/
structure Article where
  id : String
  title : String
  url : String
  keywords : List String
  category : String
  publishedAt : Int
  shortDescription : Option String
deriving Repr, DecidableEq

/-- `TrendMatch` from `common/interfaces`. -/
structure TrendMatch where
  trend : TrendingSearch
  article : Article
  score : Nat
deriving Repr, DecidableEq

/-! ### Relevance scorer (`articles.service#calculateRelevanceScore`) -/

/-- The recency bonus term of `calculateRelevanceScore`: +2 when the
article is under 24 hours old, +1 under 72 hours
(`hoursSincePublished < 24` over real division is equivalent to the
millisecond comparison used here). -/
def recencyBonus (now : Int) (article : Article) : Nat :=
  if now - article.publishedAt < 24 * 3600000 then 2
  else if now - article.publishedAt < 72 * 3600000 then 1
  else 0

/-- `ArticlesService.calculateRelevanceScore`, with the wall clock
(`Date.now()`, epoch ms) passed explicitly.  The accumulation mirrors
the source: +3 per trend token found in the title, +2 per
(article keyword, trend token) pair where either contains the other,
+1 per (article keyword, related query) pair likewise, then the recency
bonus. -/
def calculateRelevanceScore (now : Int) (trend : TrendingSearch)
    (article : Article) : Nat :=
  let trendWords := jsSplitWs (jsToLower trend.keyword)
  let trendRelated := trend.relatedQueries.map jsToLower
  let titleLower := jsToLower article.title
  let afterTitle := trendWords.foldl
    (fun s w => if jsIncludes titleLower w then s + 3 else s) 0
  let afterKeywords := article.keywords.foldl
    (fun s k =>
      let kl := jsToLower k
      let sDirect := trendWords.foldl
        (fun t w => if jsIncludes kl w || jsIncludes w kl then t + 2 else t) s
      trendRelated.foldl
        (fun t r => if jsIncludes kl r || jsIncludes r kl then t + 1 else t)
        sDirect)
    afterTitle
  afterKeywords + recencyBonus now article

/-! ### Trend-article matcher (`articles.service#matchWithTrends`) -/

/-- One stable-descending insertion step: the new element is placed
after every already-sorted element of greater *or equal* score, which is
exactly the tie behaviour of the (stable) JS `Array.prototype.sort`
with comparator `(a, b) => b.score - a.score`. -/
def insertDesc (x : TrendMatch) : List TrendMatch → List TrendMatch
  | [] => [x]
  | y :: ys => if x.score ≤ y.score then y :: insertDesc x ys else x :: y :: ys

/-- Stable sort by score descending (insertion sort; agrees with the JS
stable sort under comparator `(a, b) => b.score - a.score`). -/
def sortByScoreDesc (l : List TrendMatch) : List TrendMatch :=
  l.foldl (fun acc x => insertDesc x acc) []

/-- The inner loop of `matchWithTrends`: one trend scored against the
article list in order, keeping only strictly positive scores. -/
def scoreTrendAgainst (now : Int) (trend : TrendingSearch)
    (articles : List Article) : List TrendMatch :=
  articles.foldr
    (fun article acc =>
      let score := calculateRelevanceScore now trend article
      if score > 0 then ⟨trend, article, score⟩ :: acc else acc)
    []

/-- The pre-sort accumulation of `matchWithTrends`: trends outer loop,
articles inner loop, keeping only strictly positive scores. -/
def enumMatches (now : Int) (trends : List TrendingSearch)
    (articles : List Article) : List TrendMatch :=
  trends.foldr (fun trend acc => scoreTrendAgainst now trend articles ++ acc) []

/-- `ArticlesService.matchWithTrends` (the stored article list passed
explicitly): enumerate scored pairs, drop zero scores, sort by score
descending with the stable JS sort. -/
def matchWithTrends (now : Int) (trends : List TrendingSearch)
    (articles : List Article) : List TrendMatch :=
  sortByScoreDesc (enumMatches now trends articles)

/-! ### Error classifier (`google-ads.service`) -/

/-- One structured sub-error of a Google Ads API error payload.
`error_code` and `trigger` are JS objects, modelled as key-ordered
association lists; absent fields are `none`. -/
structure SubError where
  error_code : Option (List (String × String))
  message : Option String
  fieldPathElements : Option (List String)
  trigger : Option (List (String × String))
deriving Repr, DecidableEq

/-- `Object.keys(error.error_code || {})[0]`. -/
def subErrorType (e : SubError) : Option String :=
  ((e.error_code.getD []).map Prod.fst).head?

/-- `Object.values(error.error_code || {})[0]`. -/
def subErrorValue (e : SubError) : Option String :=
  ((e.error_code.getD []).map Prod.snd).head?

/-- The validation test of `determineStatusCode`: category keys
`range_error`, `currency_error`, `string_length_error`, `field_error`,
or the explicit duplicate-name / out-of-range enum values. -/
def isValidationError (e : SubError) : Bool :=
  subErrorType e = some "range_error" ||
  subErrorType e = some "currency_error" ||
  subErrorType e = some "string_length_error" ||
  subErrorType e = some "field_error" ||
  subErrorValue e = some "DUPLICATE_CAMPAIGN_NAME" ||
  subErrorValue e = some "DUPLICATE_NAME" ||
  subErrorValue e = some "TOO_LOW" ||
  subErrorValue e = some "TOO_HIGH" ||
  subErrorValue e = some "VALUE_NOT_MULTIPLE_OF_BILLABLE_UNIT"

/-- One iteration of the `determineStatusCode` loop body: the category
tests applied, in order, to a single sub-error; `none` when the
sub-error matches no category and the loop continues. -/
def classifySubError (e : SubError) : Option Nat :=
  if isValidationError e then some 400
  else if subErrorType e = some "authentication_error" then some 401
  else if subErrorType e = some "authorization_error" then some 403
  else if subErrorType e = some "resource_not_found_error" then some 404
  else if subErrorType e = some "quota_error" then some 429
  else none

/-- `GoogleAdsService.determineStatusCode`: scan the sub-errors in list
order, returning on the first one that matches any category; default
400 when the loop falls through. -/
def determineStatusCode : List SubError → Nat
  | [] => 400
  | e :: rest =>
    match classifySubError e with
    | some status => status
    | none => determineStatusCode rest

/-- A raw platform error value as received by the catch blocks
(`error` of type `any`): possibly-absent `errors` array, `message`,
`request_id`. -/
structure ErrPayload where
  errors : Option (List SubError)
  message : Option String
  request_id : Option String
deriving Repr, DecidableEq

/-- One entry of the `formattedErrors` array built by
`extractGoogleAdsErrorDetails`.  `code`/`typeName` are `none` when the
JS expression produced `undefined` (present but empty `error_code`). -/
structure FormattedError where
  code : Option String
  typeName : Option String
  message : String
  field : Option String
  trigger : Option String
deriving Repr, DecidableEq

/-- The per-sub-error formatting of `extractGoogleAdsErrorDetails`. -/
def formatSubError (e : SubError) : FormattedError :=
  { code :=
      match e.error_code with
      | some l => (l.map Prod.fst).head?
      | none => some "UNKNOWN"
    typeName :=
      match e.error_code with
      | some l => (l.map Prod.snd).head?
      | none => some "UNKNOWN"
    message := jsStringOr e.message "Unknown error"
    field :=
      match e.fieldPathElements with
      | some fs => jsStringOrNull (some (String.intercalate "." fs))
      | none => none
    trigger :=
      match e.trigger with
      | some l => (l.map Prod.snd).head?
      | none => none }

/-- The classification record returned by
`extractGoogleAdsErrorDetails`. -/
structure ErrorDetails where
  statusCode : Nat
  message : String
  errors : List FormattedError
  requestId : Option String
deriving Repr, DecidableEq

/-- `GoogleAdsService.extractGoogleAdsErrorDetails`: a payload with a
non-empty `errors` array is classified structurally; anything else
(absent or empty array — the malformed cases) degrades to the generic
500 classification. -/
def extractGoogleAdsErrorDetails (p : ErrPayload) : ErrorDetails :=
  let requestId := jsStringOrNull p.request_id
  match p.errors with
  | some (e :: es) =>
    let formattedErrors := (e :: es).map formatSubError
    { statusCode := determineStatusCode (e :: es)
      message := jsStringOr (some (formatSubError e).message) "Google Ads API error"
      errors := formattedErrors
      requestId := requestId }
  | _ =>
    { statusCode := 500
      message := jsStringOr p.message "An unexpected error occurred"
      errors := []
      requestId := requestId }

/-- The body of the `HttpException` built by `createHttpException`;
`timestamp` is the wall-clock instant (`new Date().toISOString()`)
sampled when the exception is built. -/
structure HttpErrorBody where
  statusCode : Nat
  message : String
  errors : List FormattedError
  requestId : Option String
  timestamp : Int
deriving Repr, DecidableEq

/-- `GoogleAdsService.createHttpException` on a raw platform error
payload, with the sampled wall clock passed explicitly. -/
def createHttpException (p : ErrPayload) (now : Int) : HttpErrorBody :=
  let d := extractGoogleAdsErrorDetails p
  { statusCode := d.statusCode
    message := d.message
    errors := d.errors
    requestId := d.requestId
    timestamp := now }

/-! ### Provisioning saga and rollback coordinator (`google-ads.service`) -/

/-- Platform campaign status enum (`enums.CampaignStatus`). -/
inductive CampaignStatus where
  | ENABLED
  | PAUSED
  | REMOVED
deriving Repr, DecidableEq

/-- `CampaignConfig` from `common/interfaces`; the `Date` fields are
epoch milliseconds. -/
structure CampaignConfig where
  name : String
  budgetMicros : Nat
  cpcBidMicros : Nat
  startDate : Int
  endDate : Int
  keywords : List String
  finalUrl : String
  headlines : List String
  descriptions : List String
deriving Repr, DecidableEq

/-- `CampaignResult` from `common/interfaces`. -/
structure CampaignResult where
  campaignId : String
  adGroupId : String
  status : CampaignStatus
  resourceName : String
deriving Repr, DecidableEq

/-- Gregorian civil date from a day count relative to the Unix epoch
(the standard days-to-civil conversion used by `Date#toISOString`). -/
def civilFromDays (z0 : Int) : Int × Int × Int :=
  let z := z0 + 719468
  let era := Int.fdiv z 146097
  let doe := z - era * 146097
  let yoe := Int.fdiv (doe - Int.fdiv doe 1460 + Int.fdiv doe 36524 - Int.fdiv doe 146096) 365
  let y := yoe + era * 400
  let doy := doe - (365 * yoe + Int.fdiv yoe 4 - Int.fdiv yoe 100)
  let mp := Int.fdiv (5 * doy + 2) 153
  let d := doy - Int.fdiv (153 * mp + 2) 5 + 1
  let m := if mp < 10 then mp + 3 else mp - 9
  (if m ≤ 2 then y + 1 else y, m, d)

/-- The character for one decimal digit. -/
def digitChar (n : Nat) : Char :=
  match n with
  | 0 => '0' | 1 => '1' | 2 => '2' | 3 => '3' | 4 => '4'
  | 5 => '5' | 6 => '6' | 7 => '7' | 8 => '8' | _ => '9'

/-- Fuelled decimal rendering loop (fuel-structural so that the kernel
can evaluate it; the initial fuel `n + 1` always suffices). -/
def natDigitCharsCore : Nat → Nat → List Char → List Char
  | 0, _, acc => acc
  | fuel + 1, n, acc =>
    let acc2 := digitChar (n % 10) :: acc
    if n < 10 then acc2 else natDigitCharsCore fuel (n / 10) acc2

/-- Decimal digit characters of a natural number, most significant
first. -/
def natDigitChars (n : Nat) : List Char :=
  natDigitCharsCore (n + 1) n []

/-- Left-pad a digit string with zeros to the given width. -/
def padZeros (width : Nat) (ds : List Char) : List Char :=
  List.replicate (width - ds.length) '0' ++ ds

/-- The calendar-date part of `Date#toISOString`: `YYYY-MM-DD`. -/
def isoDatePart (ms : Int) : List Char :=
  let ymd := civilFromDays (Int.fdiv ms 86400000)
  padZeros 4 (natDigitChars ymd.1.toNat) ++ '-' ::
    (padZeros 2 (natDigitChars ymd.2.1.toNat) ++ '-' ::
      padZeros 2 (natDigitChars ymd.2.2.toNat))

/-- `GoogleAdsService.formatDate`: take the calendar-date part of
`date.toISOString()` and strip every dash from it. -/
def formatDate (ms : Int) : String :=
  ⟨(isoDatePart ms).filter (· ≠ '-')⟩

/-- JS `s.split('/')` on the character list. -/
def splitSlashGo : List Char → List Char → List (List Char)
  | [], acc => [acc.reverse]
  | c :: cs, acc =>
    if c = '/' then acc.reverse :: splitSlashGo cs []
    else splitSlashGo cs (c :: acc)

/-- `extractId`: the trailing path segment of a platform resource
name (`parts[parts.length - 1]` after splitting on the slash). -/
def extractId (resourceName : String) : String :=
  ⟨(splitSlashGo resourceName.data []).getLastD []⟩

/-- `manual_cpc` field of the campaign create request. -/
structure ManualCpc where
  enhanced_cpc_enabled : Bool
deriving Repr, DecidableEq

/-- `network_settings` field of the campaign create request. -/
structure NetworkSettings where
  target_google_search : Bool
  target_search_network : Bool
  target_content_network : Bool
deriving Repr, DecidableEq

/-- Advertising channel type enum
(`enums.AdvertisingChannelType`), restricted to the variant used. -/
inductive ChannelType where
  | SEARCH
deriving Repr, DecidableEq

/-- The campaign create request built in step 2 of
`GoogleAdsService.createCampaign`. -/
structure CampaignData where
  name : String
  advertising_channel_type : ChannelType
  status : CampaignStatus
  campaign_budget : String
  manual_cpc : ManualCpc
  network_settings : NetworkSettings
  start_date : String
  end_date : String
  contains_eu_political_advertising : String
deriving Repr, DecidableEq

/-- The literal `campaignData` object of
`GoogleAdsService.createCampaign` step 2. -/
def mkCampaignData (config : CampaignConfig) (budgetResourceName : String) :
    CampaignData :=
  { name := config.name
    advertising_channel_type := ChannelType.SEARCH
    status := CampaignStatus.PAUSED
    campaign_budget := budgetResourceName
    manual_cpc := { enhanced_cpc_enabled := false }
    network_settings :=
      { target_google_search := true
        target_search_network := false
        target_content_network := false }
    start_date := formatDate config.startDate
    end_date := formatDate config.endDate
    contains_eu_political_advertising :=
      "DOES_NOT_CONTAIN_EU_POLITICAL_ADVERTISING" }

/-- The budget create request built by `createCampaignBudget` (budget
name de-duplicated with the creation timestamp). -/
structure BudgetData where
  name : String
  amount_micros : Nat
deriving Repr, DecidableEq

/-- `createCampaignBudget`'s request object. -/
def mkBudgetData (name : String) (amountMicros : Nat) (nowTs : Int) :
    BudgetData :=
  { name := "Budget: " ++ name ++ " (" ++ toString nowTs ++ ")"
    amount_micros := amountMicros }

/-- Platform calls issued by the rollback coordinator, in order. -/
inductive RbAction where
  | removeCampaign (resourceName : String)
  | updateCampaignRemoved (resourceName : String)
  | waitMs (ms : Nat)
  | removeBudget (resourceName : String)
deriving Repr, DecidableEq

/-- Outcomes of the platform calls the rollback coordinator may issue
(`true` = the platform accepted the call). -/
structure RbEnv where
  removeCampaignOk : Bool
  updateCampaignOk : Bool
  removeBudgetOk : Bool
deriving Repr, DecidableEq

/-- `GoogleAdsService.rollbackCampaignCreation`: campaign first (direct
remove, then the update-to-REMOVED fallback), then — only after the
campaign attempt — the budget, preceded by the 2-second propagation wait
exactly when the campaign removal succeeded.  Every platform failure is
caught, so the coordinator is a total function: it never throws.
Returns the issued-call trace and the `campaignRemoved` flag. -/
def rollbackCampaignCreation (campaignResourceName budgetResourceName : Option String)
    (env : RbEnv) : List RbAction × Bool :=
  let campaignPhase : List RbAction × Bool :=
    match campaignResourceName with
    | none => ([], false)
    | some rn =>
      if env.removeCampaignOk then ([RbAction.removeCampaign rn], true)
      else if env.updateCampaignOk then
        ([RbAction.removeCampaign rn, RbAction.updateCampaignRemoved rn], true)
      else
        ([RbAction.removeCampaign rn, RbAction.updateCampaignRemoved rn], false)
  let campaignRemoved := campaignPhase.2
  let budgetPhase : List RbAction :=
    match budgetResourceName with
    | none => []
    | some rn =>
      (if campaignRemoved then [RbAction.waitMs 2000] else []) ++
        [RbAction.removeBudget rn]
  (campaignPhase.1 ++ budgetPhase, campaignRemoved)

/-- Platform responses for one provisioning attempt: each saga step's
outcome as a function of the request it is sent, plus the rollback
outcomes and the sampled wall clock. -/
structure SagaEnv where
  budgetStep : BudgetData → Except ErrPayload String
  campaignStep : CampaignData → Except ErrPayload String
  adGroupStep : Except ErrPayload String
  keywordsStep : Except ErrPayload Unit
  adStep : Except ErrPayload Unit
  rbEnv : RbEnv
  now : Int

/-- `GoogleAdsService.createCampaign`: the five-step saga.  Tracks the
budget/campaign resource names created so far; on any step failure runs
the rollback coordinator on exactly those, then surfaces the *original*
step error through `createHttpException` — never a rollback failure.
Returns the rollback trace (empty on success) and the outcome. -/
def createCampaignSaga (config : CampaignConfig) (env : SagaEnv) :
    List RbAction × Except HttpErrorBody CampaignResult :=
  match env.budgetStep (mkBudgetData config.name config.budgetMicros env.now) with
  | Except.error e =>
    let rb := rollbackCampaignCreation none none env.rbEnv
    (rb.1, Except.error (createHttpException e env.now))
  | Except.ok budgetResourceName =>
    match env.campaignStep (mkCampaignData config budgetResourceName) with
    | Except.error e =>
      let rb := rollbackCampaignCreation none (some budgetResourceName) env.rbEnv
      (rb.1, Except.error (createHttpException e env.now))
    | Except.ok campaignResourceName =>
      match env.adGroupStep with
      | Except.error e =>
        let rb := rollbackCampaignCreation (some campaignResourceName)
          (some budgetResourceName) env.rbEnv
        (rb.1, Except.error (createHttpException e env.now))
      | Except.ok adGroupResourceName =>
        match env.keywordsStep with
        | Except.error e =>
          let rb := rollbackCampaignCreation (some campaignResourceName)
            (some budgetResourceName) env.rbEnv
          (rb.1, Except.error (createHttpException e env.now))
        | Except.ok _ =>
          match env.adStep with
          | Except.error e =>
            let rb := rollbackCampaignCreation (some campaignResourceName)
              (some budgetResourceName) env.rbEnv
            (rb.1, Except.error (createHttpException e env.now))
          | Except.ok _ =>
            ([], Except.ok
              { campaignId := extractId campaignResourceName
                adGroupId := extractId adGroupResourceName
                status := CampaignStatus.PAUSED
                resourceName := campaignResourceName })

/-! ### Campaign lifecycle registry (`campaigns.service`) -/

/-- Local lifecycle status of a stored campaign. -/
inductive RegStatus where
  | ACTIVE
  | PAUSED
  | EXPIRED
deriving Repr, DecidableEq

/-- `StoredCampaign` from `campaigns.service`; timestamps are epoch
milliseconds. -/
structure StoredCampaign where
  id : String
  articleId : String
  trendKeyword : String
  result : CampaignResult
  createdAt : Int
  expiresAt : Int
  status : RegStatus
deriving Repr, DecidableEq

/-- The registry `Map` in insertion order (JS `Map` preserves it and
keys — campaign ids — are unique). -/
abbrev Registry := List StoredCampaign

/-- JS `Map.get`: the (unique) entry with the given id. -/
def regGet (st : Registry) (campaignId : String) : Option StoredCampaign :=
  st.find? (fun c => c.id = campaignId)

/-- JS `Map.set`: replace in place when the key exists, else append. -/
def regSet (st : Registry) (c : StoredCampaign) : Registry :=
  if st.any (fun d => d.id = c.id) then
    st.map (fun d => if d.id = c.id then c else d)
  else st ++ [c]

/-- JS `Map.delete`: drop the (unique) entry with the given id. -/
def regDelete (st : Registry) (campaignId : String) : Registry :=
  st.eraseP (fun c => c.id = campaignId)

/-- In-place status mutation of the stored entry
(`campaign.status = ...` on the object held by the map). -/
def regSetStatus (st : Registry) (campaignId : String) (s : RegStatus) :
    Registry :=
  st.map (fun c => if c.id = campaignId then { c with status := s } else c)

/-- Outcomes of the delegated `GoogleAdsService` platform calls, keyed
by the campaign resource name they act on. -/
structure PlatformEnv where
  pauseOutcome : String → Except ErrPayload Unit
  enableOutcome : String → Except ErrPayload Unit
  removeOutcome : String → Except ErrPayload Unit

/-- `CampaignsService.pauseCampaign`: unknown id is a silent no-op;
otherwise delegate to the platform by resource name and only on success
flip the local status to PAUSED.  A platform throw leaves the registry
untouched and propagates. -/
def pauseCampaign (env : PlatformEnv) (st : Registry) (campaignId : String) :
    Except ErrPayload Unit × Registry :=
  match regGet st campaignId with
  | none => (Except.ok (), st)
  | some campaign =>
    match env.pauseOutcome campaign.result.resourceName with
    | Except.error e => (Except.error e, st)
    | Except.ok _ => (Except.ok (), regSetStatus st campaignId RegStatus.PAUSED)

/-- `CampaignsService.enableCampaign`: as `pauseCampaign`, flipping the
local status to ACTIVE on platform success. -/
def enableCampaign (env : PlatformEnv) (st : Registry) (campaignId : String) :
    Except ErrPayload Unit × Registry :=
  match regGet st campaignId with
  | none => (Except.ok (), st)
  | some campaign =>
    match env.enableOutcome campaign.result.resourceName with
    | Except.error e => (Except.error e, st)
    | Except.ok _ => (Except.ok (), regSetStatus st campaignId RegStatus.ACTIVE)

/-- `CampaignsService.removeCampaign`: unknown id is a silent no-op;
otherwise delegate platform removal by resource name and only on
success delete the local entry.  A platform throw leaves the registry
untouched and propagates. -/
def removeCampaign (env : PlatformEnv) (st : Registry) (campaignId : String) :
    Except ErrPayload Unit × Registry :=
  match regGet st campaignId with
  | none => (Except.ok (), st)
  | some campaign =>
    match env.removeOutcome campaign.result.resourceName with
    | Except.error e => (Except.error e, st)
    | Except.ok _ => (Except.ok (), regDelete st campaignId)

/-- The sweep loop of `cleanupExpiredCampaigns`: iterate the entry
snapshot; for each expired, still-ACTIVE entry call `removeCampaign`,
counting it when that call did not throw; a throw is caught and the
sweep continues with the remaining entries. -/
def cleanupLoop (env : PlatformEnv) (now : Int) :
    List StoredCampaign → Registry → Nat → Registry × Nat
  | [], st, cleaned => (st, cleaned)
  | campaign :: rest, st, cleaned =>
    if campaign.expiresAt < now ∧ campaign.status = RegStatus.ACTIVE then
      match removeCampaign env st campaign.id with
      | (Except.ok _, st') => cleanupLoop env now rest st' (cleaned + 1)
      | (Except.error _, st') => cleanupLoop env now rest st' cleaned
    else cleanupLoop env now rest st cleaned

/-- `CampaignsService.cleanupExpiredCampaigns`: sweep every entry,
remove the expired ACTIVE ones, return the count actually cleaned.
(JS `Map` iteration visits the remaining entries unchanged when the
loop deletes only the entry it is visiting.) -/
def cleanupExpiredCampaigns (env : PlatformEnv) (now : Int) (st : Registry) :
    Registry × Nat :=
  cleanupLoop env now st st 0

/-- `CreateExpressCampaignDto`. -/
structure CreateExpressCampaignDto where
  articleId : String
  trendKeyword : String
  budgetMicros : Option Nat
  durationHours : Option Nat
deriving Repr, DecidableEq

/-- Service configuration defaults
(`DEFAULT_CAMPAIGN_BUDGET_MICROS` etc.). -/
structure SvcDefaults where
  defaultBudgetMicros : Nat
  defaultCpcBidMicros : Nat
  defaultDurationHours : Nat
deriving Repr, DecidableEq

/-- `CampaignsService.createExpressCampaign`: look the article up
(absent → NotFoundException), apply the budget/duration defaults,
derive keywords/headlines/descriptions from the article and trend, run
the provisioning saga, and on success insert the tracking entry with
local status ACTIVE and `expiresAt = createdAt + durationHours` into
the registry. -/
def createExpressCampaign (cfg : SvcDefaults) (articles : List Article)
    (dto : CreateExpressCampaignDto) (sagaEnv : SagaEnv) (now : Int)
    (st : Registry) : Except HttpErrorBody (CampaignResult × Registry) :=
  match articles.find? (fun a => a.id = dto.articleId) with
  | none =>
    Except.error
      { statusCode := 404
        message := "Article not found: " ++ dto.articleId
        errors := []
        requestId := none
        timestamp := sagaEnv.now }
  | some article =>
    let budgetMicros := jsNatOr dto.budgetMicros cfg.defaultBudgetMicros
    let durationHours := jsNatOr dto.durationHours cfg.defaultDurationHours
    let startDate := now
    let endDate := startDate + durationHours * 60 * 60 * 1000
    let campaignName :=
      "Express: " ++ dto.trendKeyword ++ " - " ++ ⟨isoDatePart startDate⟩
    let keywords := dto.trendKeyword :: article.keywords
    let headlines :=
      [⟨article.title.data.take 30⟩,
       article.category ++ " - Última Hora",
       "Lee Más Aquí"]
    let descriptions :=
      [jsStringOr article.shortDescription "Información actualizada y confiable",
       "Toda la actualidad de " ++ article.category]
    let config : CampaignConfig :=
      { name := campaignName
        budgetMicros := budgetMicros
        cpcBidMicros := cfg.defaultCpcBidMicros
        startDate := startDate
        endDate := endDate
        keywords := keywords
        finalUrl := article.url
        headlines := headlines
        descriptions := descriptions }
    match (createCampaignSaga config sagaEnv).2 with
    | Except.error e => Except.error e
    | Except.ok result =>
      let storedCampaign : StoredCampaign :=
        { id := result.campaignId
          articleId := dto.articleId
          trendKeyword := dto.trendKeyword
          result := result
          createdAt := startDate
          expiresAt := endDate
          status := RegStatus.ACTIVE }
      Except.ok (result, regSet st storedCampaign)

/-! ### Shared concrete fixtures -/

/-- A sub-error of the validation category (out-of-range budget). -/
def valSubError : SubError :=
  { error_code := some [("range_error", "TOO_LOW")]
    message := some "Too low."
    fieldPathElements := none
    trigger := none }

/-- A sub-error of the authentication category. -/
def authSubError : SubError :=
  { error_code := some [("authentication_error", "AUTHENTICATION_FAILURE")]
    message := some "Authentication failed."
    fieldPathElements := none
    trigger := none }

/-- A sub-error matching none of the classifier's categories. -/
def unmatchedSubError : SubError :=
  { error_code := some [("internal_error", "INTERNAL_ERROR")]
    message := some "Internal error."
    fieldPathElements := none
    trigger := none }

/-! ### C2 — error classifier precedence -/

/-- C2 counterexample: a payload containing both an authentication
sub-error and a validation-category sub-error, with the authentication
one first in the list, classifies as 401, not as the validation 400 the
claim requires for either list order. -/
theorem determineStatusCode_order_dependent_cex :
    isValidationError valSubError = true ∧
    subErrorType authSubError = some "authentication_error" ∧
    determineStatusCode [authSubError, valSubError] = 401 ∧
    determineStatusCode [authSubError, valSubError] ≠ 400 := by
  refine ⟨by decide, by decide, by decide, by decide⟩

/-- C2 (amended): the classifier scans the sub-errors in list order and
returns the classification of the *first* sub-error matching any
category, applying the category tests in precedence order
(validation, authentication, authorization, not-found, quota) within
each single sub-error; a payload whose sub-errors match no category
defaults to 400.  Consequently `[validation, authentication]` yields
400 but `[authentication, validation]` yields 401: the claimed global
category precedence holds within one sub-error, not across the list. -/
theorem determineStatusCode_first_match_precedence :
    (∀ errs : List SubError,
      determineStatusCode errs = (errs.findSome? classifySubError).getD 400) ∧
    determineStatusCode [valSubError, authSubError] = 400 ∧
    determineStatusCode [authSubError, valSubError] = 401 ∧
    (∀ errs : List SubError, (∀ e ∈ errs, classifySubError e = none) →
      determineStatusCode errs = 400) := by
  have hchar : ∀ errs : List SubError,
      determineStatusCode errs = (errs.findSome? classifySubError).getD 400 := by
    intro errs
    induction errs with
    | nil => rfl
    | cons e rest ih =>
      simp only [determineStatusCode, List.findSome?]
      cases classifySubError e <;> simp [ih]
  refine ⟨hchar, by decide, by decide, ?_⟩
  intro errs hnone
  rw [hchar]
  have : errs.findSome? classifySubError = none := by
    rw [List.findSome?_eq_none_iff]
    exact hnone
  rw [this]
  rfl

/-- C2 amended-claim witness: the default branch applied at a concrete
unmatched payload. -/
theorem determineStatusCode_first_match_precedence_witness :
    determineStatusCode [unmatchedSubError] = 400 :=
  determineStatusCode_first_match_precedence.2.2.2 [unmatchedSubError]
    (by decide)

/-! ### C8 — classifier totality and determinism on malformed payloads -/

/-- C8: the error classifier is a total function; on a payload with no
well-formed sub-error list (absent `errors` field or an empty array) it
degrades to the generic classification — status 500, empty sub-error
list, fallback message, pass-through request id — rather than erroring,
and two classifications of the same payload (even at different wall
clocks) agree on status code, message, sub-error list and request id. -/
theorem error_classifier_total_deterministic (p : ErrPayload)
    (hmal : p.errors = none ∨ p.errors = some []) :
    extractGoogleAdsErrorDetails p =
      { statusCode := 500
        message := jsStringOr p.message "An unexpected error occurred"
        errors := []
        requestId := jsStringOrNull p.request_id } ∧
    ∀ t₁ t₂ : Int,
      (createHttpException p t₁).statusCode = (createHttpException p t₂).statusCode ∧
      (createHttpException p t₁).message = (createHttpException p t₂).message ∧
      (createHttpException p t₁).errors = (createHttpException p t₂).errors ∧
      (createHttpException p t₁).requestId = (createHttpException p t₂).requestId := by
  constructor
  · rcases hmal with h | h <;> simp [extractGoogleAdsErrorDetails, h]
  · intro t₁ t₂
    exact ⟨rfl, rfl, rfl, rfl⟩

/-- C8 witness: the empty payload, classified twice. -/
theorem error_classifier_total_deterministic_witness :
    extractGoogleAdsErrorDetails ⟨none, none, none⟩ =
      { statusCode := 500
        message := "An unexpected error occurred"
        errors := []
        requestId := none } ∧
    (createHttpException ⟨none, none, none⟩ 0).statusCode =
      (createHttpException ⟨none, none, none⟩ 999).statusCode := by
  have h := error_classifier_total_deterministic ⟨none, none, none⟩ (Or.inl rfl)
  exact ⟨h.1, (h.2 0 999).1⟩

/-! ### C1 / C4 — saga failure, rollback order, error surfacing -/

/-- C1: when a provisioning attempt fails after the campaign-creation
step (at the ad-group, keyword or ad step), the rollback trace is
exactly: the campaign removal attempt first — the direct remove call,
followed by the update-to-REMOVED fallback exactly when the direct
remove is rejected — then, only after the campaign attempt, the budget
removal, preceded by the 2000 ms propagation wait exactly when the
campaign removal succeeded; and regardless of every rollback outcome
the attempt's result is the classified *original* step error (the
rollback coordinator, a total function, never throws and never replaces
it). -/
theorem saga_failure_after_campaign_rolls_back_in_order
    (config : CampaignConfig) (env : SagaEnv) (e : ErrPayload)
    (budgetRN campaignRN : String)
    (hb : env.budgetStep (mkBudgetData config.name config.budgetMicros env.now) =
      Except.ok budgetRN)
    (hc : env.campaignStep (mkCampaignData config budgetRN) = Except.ok campaignRN)
    (hfail : env.adGroupStep = Except.error e ∨
      (∃ agRN, env.adGroupStep = Except.ok agRN ∧
        env.keywordsStep = Except.error e) ∨
      (∃ agRN, env.adGroupStep = Except.ok agRN ∧
        env.keywordsStep = Except.ok () ∧ env.adStep = Except.error e)) :
    createCampaignSaga config env =
      ((if env.rbEnv.removeCampaignOk then [RbAction.removeCampaign campaignRN]
        else [RbAction.removeCampaign campaignRN,
              RbAction.updateCampaignRemoved campaignRN]) ++
       (if env.rbEnv.removeCampaignOk || env.rbEnv.updateCampaignOk then
          [RbAction.waitMs 2000] else []) ++
       [RbAction.removeBudget budgetRN],
       Except.error (createHttpException e env.now)) := by
  have hrb : rollbackCampaignCreation (some campaignRN) (some budgetRN) env.rbEnv =
      ((if env.rbEnv.removeCampaignOk then [RbAction.removeCampaign campaignRN]
        else [RbAction.removeCampaign campaignRN,
              RbAction.updateCampaignRemoved campaignRN]) ++
       (if env.rbEnv.removeCampaignOk || env.rbEnv.updateCampaignOk then
          [RbAction.waitMs 2000] else []) ++
       [RbAction.removeBudget budgetRN],
       env.rbEnv.removeCampaignOk || env.rbEnv.updateCampaignOk) := by
    cases hr : env.rbEnv.removeCampaignOk <;>
      cases hu : env.rbEnv.updateCampaignOk <;>
        simp [rollbackCampaignCreation, hr, hu]
  rcases hfail with hag | ⟨agRN, hag, hkw⟩ | ⟨agRN, hag, hkw, had⟩
  · simp [createCampaignSaga, hb, hc, hag, hrb]
  · simp [createCampaignSaga, hb, hc, hag, hkw, hrb]
  · simp [createCampaignSaga, hb, hc, hag, hkw, had, hrb]

/-- Concrete saga environment failing at the keyword step, with the
direct campaign remove rejected and the fallback update accepted. -/
def kwFailEnv : SagaEnv :=
  { budgetStep := fun _ => Except.ok "customers/1/campaignBudgets/5"
    campaignStep := fun _ => Except.ok "customers/1/campaigns/77"
    adGroupStep := Except.ok "customers/1/adGroups/9"
    keywordsStep := Except.error ⟨none, some "keyword rejected", none⟩
    adStep := Except.ok ()
    rbEnv := { removeCampaignOk := false, updateCampaignOk := true,
               removeBudgetOk := true }
    now := 1700000000000 }

/-- A concrete well-formed campaign spec. -/
def sampleConfig : CampaignConfig :=
  { name := "Express: elecciones"
    budgetMicros := 20000000
    cpcBidMicros := 500000
    startDate := 1700000000000
    endDate := 1700086400000
    keywords := ["elecciones"]
    finalUrl := "https://example.com/a"
    headlines := ["h1", "h2", "h3"]
    descriptions := ["d1", "d2"] }

/-- C1 witness: the saga run against `kwFailEnv` issues remove, fallback
update, 2 s wait, budget removal — in that order — and surfaces the
classified keyword-step error. -/
theorem saga_failure_after_campaign_rolls_back_in_order_witness :
    createCampaignSaga sampleConfig kwFailEnv =
      ([RbAction.removeCampaign "customers/1/campaigns/77",
        RbAction.updateCampaignRemoved "customers/1/campaigns/77",
        RbAction.waitMs 2000,
        RbAction.removeBudget "customers/1/campaignBudgets/5"],
       Except.error
        (createHttpException ⟨none, some "keyword rejected", none⟩
          1700000000000)) := by
  rw [saga_failure_after_campaign_rolls_back_in_order sampleConfig kwFailEnv
    ⟨none, some "keyword rejected", none⟩
    "customers/1/campaignBudgets/5" "customers/1/campaigns/77" rfl rfl
    (Or.inr (Or.inl ⟨"customers/1/adGroups/9", rfl, rfl⟩))]
  rfl

/-- C4: a provisioning attempt that fails at the budget-creation step
(the first saga step) issues no rollback call at all — the rollback
trace is empty, since neither resource handle was recorded — and the
classified budget-step error is surfaced directly. -/
theorem saga_budget_failure_skips_rollback
    (config : CampaignConfig) (env : SagaEnv) (e : ErrPayload)
    (hb : env.budgetStep (mkBudgetData config.name config.budgetMicros env.now) =
      Except.error e) :
    createCampaignSaga config env = ([], Except.error (createHttpException e env.now)) := by
  simp [createCampaignSaga, hb, rollbackCampaignCreation]

/-- Concrete saga environment whose budget step is rejected. -/
def budgetFailEnv : SagaEnv :=
  { kwFailEnv with
    budgetStep := fun _ => Except.error ⟨some [valSubError], some "budget rejected", some "req-1"⟩ }

/-- C4 witness: the budget-step failure at a concrete environment. -/
theorem saga_budget_failure_skips_rollback_witness :
    createCampaignSaga sampleConfig budgetFailEnv =
      ([], Except.error
        (createHttpException ⟨some [valSubError], some "budget rejected", some "req-1"⟩
          1700000000000)) := by
  rw [saga_budget_failure_skips_rollback sampleConfig budgetFailEnv
    ⟨some [valSubError], some "budget rejected", some "req-1"⟩ rfl]
  rfl

/-! ### C10 — lifecycle operations keep the registry intact on platform failure -/

/-- C10: for a campaign id present in the registry, if the delegated
platform call inside `pauseCampaign`, `enableCampaign` or
`removeCampaign` throws, the registry is returned unchanged — no status
flip, no deletion — and that error is the operation's result: the local
mutation happens only after the platform call succeeds. -/
theorem lifecycle_ops_platform_failure_preserves_registry
    (env : PlatformEnv) (st : Registry) (campaignId : String)
    (campaign : StoredCampaign) (e : ErrPayload)
    (hfind : regGet st campaignId = some campaign) :
    (env.pauseOutcome campaign.result.resourceName = Except.error e →
      pauseCampaign env st campaignId = (Except.error e, st)) ∧
    (env.enableOutcome campaign.result.resourceName = Except.error e →
      enableCampaign env st campaignId = (Except.error e, st)) ∧
    (env.removeOutcome campaign.result.resourceName = Except.error e →
      removeCampaign env st campaignId = (Except.error e, st)) := by
  refine ⟨fun h => ?_, fun h => ?_, fun h => ?_⟩ <;>
    simp [pauseCampaign, enableCampaign, removeCampaign, hfind, h]

/-- A concrete stored campaign used by the lifecycle witnesses. -/
def sampleStored : StoredCampaign :=
  { id := "77"
    articleId := "a1"
    trendKeyword := "elecciones"
    result := { campaignId := "77", adGroupId := "9",
                status := CampaignStatus.PAUSED,
                resourceName := "customers/1/campaigns/77" }
    createdAt := 1700000000000
    expiresAt := 1700086400000
    status := RegStatus.ACTIVE }

/-- A platform environment in which every delegated call throws. -/
def allFailPlatformEnv : PlatformEnv :=
  { pauseOutcome := fun _ => Except.error ⟨none, some "pause failed", none⟩
    enableOutcome := fun _ => Except.error ⟨none, some "pause failed", none⟩
    removeOutcome := fun _ => Except.error ⟨none, some "pause failed", none⟩ }

/-- C10 witness: all three operations on a one-entry registry whose
platform calls throw leave the entry in place and surface the error. -/
theorem lifecycle_ops_platform_failure_preserves_registry_witness :
    pauseCampaign allFailPlatformEnv [sampleStored] "77" =
      (Except.error ⟨none, some "pause failed", none⟩, [sampleStored]) ∧
    removeCampaign allFailPlatformEnv [sampleStored] "77" =
      (Except.error ⟨none, some "pause failed", none⟩, [sampleStored]) := by
  have h := lifecycle_ops_platform_failure_preserves_registry allFailPlatformEnv
    [sampleStored] "77" sampleStored ⟨none, some "pause failed", none⟩ rfl
  exact ⟨h.1 rfl, h.2.2 rfl⟩

/-! ### C6 — campaign create request shape -/

/-- Every character `digitChar` produces is a decimal digit. -/
theorem digitChar_isDigit (n : Nat) : (digitChar n).isDigit = true := by
  unfold digitChar
  split <;> decide

/-- The rendering loop only ever adds digit characters. -/
theorem natDigitCharsCore_isDigit (fuel : Nat) :
    ∀ n acc, (∀ c ∈ acc, c.isDigit = true) →
      ∀ c ∈ natDigitCharsCore fuel n acc, c.isDigit = true := by
  induction fuel with
  | zero => intro n acc hacc c hc; exact hacc c hc
  | succ fuel ih =>
    intro n acc hacc c hc
    have hacc2 : ∀ c ∈ digitChar (n % 10) :: acc, c.isDigit = true := by
      intro d hd
      rcases List.mem_cons.mp hd with h | h
      · subst h
        exact digitChar_isDigit _
      · exact hacc d h
    rw [natDigitCharsCore] at hc
    by_cases h : n < 10
    · rw [if_pos h] at hc
      exact hacc2 c hc
    · rw [if_neg h] at hc
      exact ih (n / 10) _ hacc2 c hc

/-- Every character of a decimal rendering is a digit. -/
theorem natDigitChars_isDigit (n : Nat) :
    ∀ c ∈ natDigitChars n, c.isDigit = true :=
  natDigitCharsCore_isDigit (n + 1) n [] (by intro c hc; cases hc)

/-- Zero-padding preserves all-digits. -/
theorem padZeros_isDigit (w : Nat) (ds : List Char)
    (h : ∀ c ∈ ds, c.isDigit = true) :
    ∀ c ∈ padZeros w ds, c.isDigit = true := by
  intro c hc
  rcases List.mem_append.mp hc with h1 | h2
  · have := List.eq_of_mem_replicate h1
    subst this
    decide
  · exact h c h2

/-- `formatDate` output is compact and separator-free: every character
is a decimal digit (in particular no dash survives the replace). -/
theorem formatDate_chars_digits (ms : Int) :
    ∀ c ∈ (formatDate ms).data, c.isDigit = true := by
  intro c hc
  have hc' : c ∈ (isoDatePart ms).filter (fun ch => ch ≠ '-') := hc
  rw [List.mem_filter] at hc'
  obtain ⟨hmem, hne⟩ := hc'
  have hne' : c ≠ '-' := by simpa using hne
  unfold isoDatePart at hmem
  simp only [List.mem_append, List.mem_cons] at hmem
  rcases hmem with h1 | h2 | h3 | h4 | h5
  · exact padZeros_isDigit _ _ (natDigitChars_isDigit _) c h1
  · exact absurd h2 hne'
  · exact padZeros_isDigit _ _ (natDigitChars_isDigit _) c h3
  · exact absurd h4 hne'
  · exact padZeros_isDigit _ _ (natDigitChars_isDigit _) c h5

/-- A saga that returns success reports the paused platform status. -/
theorem saga_ok_status (config : CampaignConfig) (env : SagaEnv)
    (r : CampaignResult)
    (h : (createCampaignSaga config env).2 = Except.ok r) :
    r.status = CampaignStatus.PAUSED := by
  cases hb : env.budgetStep (mkBudgetData config.name config.budgetMicros env.now) with
  | error e => simp [createCampaignSaga, hb] at h
  | ok b =>
    cases hc : env.campaignStep (mkCampaignData config b) with
    | error e => simp [createCampaignSaga, hb, hc] at h
    | ok c =>
      cases hg : env.adGroupStep with
      | error e => simp [createCampaignSaga, hb, hc, hg] at h
      | ok g =>
        cases hk : env.keywordsStep with
        | error e => simp [createCampaignSaga, hb, hc, hg, hk] at h
        | ok u =>
          cases ha : env.adStep with
          | error e => simp [createCampaignSaga, hb, hc, hg, hk, ha] at h
          | ok v =>
            simp [createCampaignSaga, hb, hc, hg, hk, ha] at h
            rw [← h]

/-- C6: every campaign create request the saga sends carries paused
initial administrative status, the search channel with Google-Search-
only network targeting (Google search on, partner search network and
content/display network off), manual CPC bidding with enhanced CPC
disabled, start/end dates rendered by `formatDate` — whose output is a
compact all-digit, separator-free string — and the regulatory
disclosure fixed to the does-not-contain-EU-political-advertising
value; and a successful saga reports status PAUSED in its
`CampaignResult`. -/
theorem campaign_request_paused_search_only
    (config : CampaignConfig) (budgetRN : String) :
    (mkCampaignData config budgetRN).status = CampaignStatus.PAUSED ∧
    (mkCampaignData config budgetRN).advertising_channel_type = ChannelType.SEARCH ∧
    (mkCampaignData config budgetRN).network_settings =
      { target_google_search := true
        target_search_network := false
        target_content_network := false } ∧
    (mkCampaignData config budgetRN).manual_cpc = { enhanced_cpc_enabled := false } ∧
    (mkCampaignData config budgetRN).start_date = formatDate config.startDate ∧
    (mkCampaignData config budgetRN).end_date = formatDate config.endDate ∧
    (mkCampaignData config budgetRN).contains_eu_political_advertising =
      "DOES_NOT_CONTAIN_EU_POLITICAL_ADVERTISING" ∧
    (∀ ms : Int, ∀ c ∈ (formatDate ms).data, c.isDigit = true) ∧
    (∀ env r, (createCampaignSaga config env).2 = Except.ok r →
      r.status = CampaignStatus.PAUSED) :=
  ⟨rfl, rfl, rfl, rfl, rfl, rfl, rfl,
   formatDate_chars_digits,
   fun env r h => saga_ok_status config env r h⟩

/-- Saga environment in which every platform step succeeds. -/
def allOkSagaEnv : SagaEnv :=
  { budgetStep := fun _ => Except.ok "customers/1/campaignBudgets/5"
    campaignStep := fun _ => Except.ok "customers/1/campaigns/77"
    adGroupStep := Except.ok "customers/1/adGroups/9"
    keywordsStep := Except.ok ()
    adStep := Except.ok ()
    rbEnv := { removeCampaignOk := true, updateCampaignOk := true,
               removeBudgetOk := true }
    now := 1700000000000 }

/-- C6 witness: the request built for `sampleConfig` is paused with the
stated targeting, its start date renders to the digit string for
2023-11-14, and the successful saga run reports PAUSED. -/
theorem campaign_request_paused_search_only_witness :
    (mkCampaignData sampleConfig "customers/1/campaignBudgets/5").status =
      CampaignStatus.PAUSED ∧
    ('2' : Char).isDigit = true ∧
    ({ campaignId := "77", adGroupId := "9", status := CampaignStatus.PAUSED,
       resourceName := "customers/1/campaigns/77" } : CampaignResult).status =
      CampaignStatus.PAUSED := by
  have h := campaign_request_paused_search_only sampleConfig
    "customers/1/campaignBudgets/5"
  refine ⟨h.1, ?_, ?_⟩
  · exact h.2.2.2.2.2.2.2.1 1700000000000 '2' (by decide)
  · exact h.2.2.2.2.2.2.2.2 allOkSagaEnv
      { campaignId := "77", adGroupId := "9", status := CampaignStatus.PAUSED,
        resourceName := "customers/1/campaigns/77" } (by rfl)

/-! ### C7 — scorer edge cases on empty inputs -/

/-- The empty needle is a substring of every string (JS
`s.includes('')` is always true). -/
theorem jsIncludes_empty_needle (s : String) : jsIncludes s "" = true := by
  unfold jsIncludes
  cases hd : s.data with
  | nil => rfl
  | cons c t => rfl

/-- Folding +2 over a list adds twice its length. -/
theorem foldl_add_two (ks : List String) :
    ∀ s : Nat, ks.foldl (fun t _ => t + 2) s = s + 2 * ks.length := by
  induction ks with
  | nil => intro s; simp
  | cons k ks ih =>
    intro s
    simp only [List.foldl_cons, List.length_cons, ih]
    ring

/-- C7 counterexample: for a trend whose keyword text is empty, the
title and keyword matching terms do *not* contribute 0.  JS
`''.split(/\s+/)` yields `['']` and the empty string is a substring of
everything, so the single empty token matches the title (+3) and the
article's one keyword (+2): with no related queries and no recency
bonus the score is 5, where the claim requires those terms to
contribute 0. -/
theorem relevance_score_empty_keyword_cex :
    calculateRelevanceScore 400000000
      { keyword := "", traffic := "1000+", relatedQueries := [], articles := [] }
      { id := "a1", title := "x", url := "https://e.com", keywords := ["y"],
        category := "cat", publishedAt := 0, shortDescription := none } = 5 ∧
    recencyBonus 400000000
      { id := "a1", title := "x", url := "https://e.com", keywords := ["y"],
        category := "cat", publishedAt := 0, shortDescription := none } = 0 ∧
    (5 : Nat) ≠ 0 :=
  ⟨by decide, by decide, by decide⟩

/-- C7 (amended): empty keyword *lists* contribute zero and never
error — an article with an empty keyword list gets no keyword-term
contribution, leaving only the title term plus the recency bonus, and a
trend with no related queries gets no related-term contribution; but a
trend whose keyword *text* is empty tokenizes, per JS split semantics,
to one empty-string token that is a substring of every string, so it
contributes 3 from the title term plus 2 per article keyword.  The
score is a total function into the naturals, hence always a
non-negative integer. -/
theorem relevance_score_empty_inputs :
    (∀ (now : Int) (trend : TrendingSearch) (article : Article),
      article.keywords = [] →
      calculateRelevanceScore now trend article =
        (jsSplitWs (jsToLower trend.keyword)).foldl
          (fun s w => if jsIncludes (jsToLower article.title) w then s + 3 else s) 0
        + recencyBonus now article) ∧
    (∀ (now : Int) (trend : TrendingSearch) (article : Article),
      trend.keyword = "" → trend.relatedQueries = [] →
      calculateRelevanceScore now trend article =
        3 + 2 * article.keywords.length + recencyBonus now article) := by
  constructor
  · intro now trend article h
    simp [calculateRelevanceScore, h]
  · intro now trend article hkw hrq
    obtain ⟨kw, tr, rq, arts⟩ := trend
    simp only at hkw hrq
    subst hkw
    subst hrq
    unfold calculateRelevanceScore
    simp only [show jsSplitWs (jsToLower "") = [""] from rfl,
      List.map_nil, List.foldl_cons, List.foldl_nil,
      jsIncludes_empty_needle, Bool.true_or, if_true, Nat.zero_add]
    rw [foldl_add_two]

/-- C7 amended-claim witness: both branches applied at concrete
inputs — an article with no keywords scores only title + recency, and
the empty-keyword trend of the counterexample scores 3 + 2·1 + 0. -/
theorem relevance_score_empty_inputs_witness :
    calculateRelevanceScore 0
      { keyword := "zz", traffic := "", relatedQueries := [], articles := [] }
      { id := "a2", title := "t", url := "u", keywords := [],
        category := "c", publishedAt := 0, shortDescription := none } =
      (jsSplitWs (jsToLower "zz")).foldl
        (fun s w => if jsIncludes (jsToLower "t") w then s + 3 else s) 0
      + recencyBonus 0
          { id := "a2", title := "t", url := "u", keywords := [],
            category := "c", publishedAt := 0, shortDescription := none } ∧
    calculateRelevanceScore 400000000
      { keyword := "", traffic := "1000+", relatedQueries := [], articles := [] }
      { id := "a1", title := "x", url := "https://e.com", keywords := ["y"],
        category := "cat", publishedAt := 0, shortDescription := none } =
      3 + 2 * 1 + recencyBonus 400000000
        { id := "a1", title := "x", url := "https://e.com", keywords := ["y"],
          category := "cat", publishedAt := 0, shortDescription := none } :=
  ⟨relevance_score_empty_inputs.1 0
    { keyword := "zz", traffic := "", relatedQueries := [], articles := [] }
    { id := "a2", title := "t", url := "u", keywords := [],
      category := "c", publishedAt := 0, shortDescription := none } rfl,
   relevance_score_empty_inputs.2 400000000
    { keyword := "", traffic := "1000+", relatedQueries := [], articles := [] }
    { id := "a1", title := "x", url := "https://e.com", keywords := ["y"],
      category := "cat", publishedAt := 0, shortDescription := none } rfl rfl⟩

/-! ### C9 — registry entry vs platform status divergence -/

/-- C9: every registry entry inserted by a successful express-campaign
provisioning has local lifecycle status ACTIVE and
`expiresAt = createdAt + durationHours` (the requested or default
duration, in hours), while the `CampaignResult` stored inside the very
same entry reports the platform status PAUSED — the registry's
lifecycle status of a fresh campaign always diverges from the platform
status the provisioner returned. -/
theorem express_campaign_registry_status_divergence
    (cfg : SvcDefaults) (articles : List Article)
    (dto : CreateExpressCampaignDto) (sagaEnv : SagaEnv) (now : Int)
    (st : Registry) (result : CampaignResult) (st2 : Registry)
    (hok : createExpressCampaign cfg articles dto sagaEnv now st =
      Except.ok (result, st2)) :
    ∃ stored : StoredCampaign,
      st2 = regSet st stored ∧
      stored.status = RegStatus.ACTIVE ∧
      stored.createdAt = now ∧
      stored.expiresAt =
        now + (jsNatOr dto.durationHours cfg.defaultDurationHours : Nat) * 60 * 60 * 1000 ∧
      stored.result = result ∧
      stored.id = result.campaignId ∧
      result.status = CampaignStatus.PAUSED := by
  cases hfind : articles.find? (fun a => a.id = dto.articleId) with
  | none => simp [createExpressCampaign, hfind] at hok
  | some article =>
    simp only [createExpressCampaign, hfind] at hok
    split at hok
    · exact absurd hok (by simp)
    · next r heq =>
      simp only [Except.ok.injEq, Prod.mk.injEq] at hok
      obtain ⟨hr, hst⟩ := hok
      subst hr
      refine ⟨_, hst.symm, rfl, rfl, rfl, rfl, rfl, ?_⟩
      exact saga_ok_status _ sagaEnv r heq

/-- Default service configuration values from `campaigns.service`. -/
def sampleDefaults : SvcDefaults :=
  { defaultBudgetMicros := 20000000
    defaultCpcBidMicros := 500000
    defaultDurationHours := 24 }

/-- A concrete stored article for the express-campaign witness. -/
def sampleArticle : Article :=
  { id := "a1"
    title := "Elecciones 2025: Resultados preliminares"
    url := "https://example.com/a"
    keywords := ["elecciones"]
    category := "politica"
    publishedAt := 1699996400000
    shortDescription := some "Resultados en vivo" }

/-- A concrete express-campaign request. -/
def sampleExpressDto : CreateExpressCampaignDto :=
  { articleId := "a1"
    trendKeyword := "elecciones 2025"
    budgetMicros := none
    durationHours := none }

/-- C9 witness: the express creation against the all-success
environment inserts an ACTIVE entry expiring 24 h after creation whose
stored result is PAUSED. -/
theorem express_campaign_registry_status_divergence_witness :
    ∃ stored : StoredCampaign,
      ([{ id := "77", articleId := "a1", trendKeyword := "elecciones 2025",
          result := { campaignId := "77", adGroupId := "9",
                      status := CampaignStatus.PAUSED,
                      resourceName := "customers/1/campaigns/77" },
          createdAt := 1700000000000, expiresAt := 1700086400000,
          status := RegStatus.ACTIVE }] : Registry) = regSet [] stored ∧
      stored.status = RegStatus.ACTIVE ∧
      stored.createdAt = 1700000000000 ∧
      stored.expiresAt =
        1700000000000 + (jsNatOr sampleExpressDto.durationHours
          sampleDefaults.defaultDurationHours : Nat) * 60 * 60 * 1000 ∧
      stored.result =
        { campaignId := "77", adGroupId := "9", status := CampaignStatus.PAUSED,
          resourceName := "customers/1/campaigns/77" } ∧
      stored.id = "77" ∧
      CampaignStatus.PAUSED = CampaignStatus.PAUSED :=
  express_campaign_registry_status_divergence sampleDefaults [sampleArticle]
    sampleExpressDto allOkSagaEnv 1700000000000 []
    { campaignId := "77", adGroupId := "9", status := CampaignStatus.PAUSED,
      resourceName := "customers/1/campaigns/77" }
    [{ id := "77", articleId := "a1", trendKeyword := "elecciones 2025",
       result := { campaignId := "77", adGroupId := "9",
                   status := CampaignStatus.PAUSED,
                   resourceName := "customers/1/campaigns/77" },
       createdAt := 1700000000000, expiresAt := 1700086400000,
       status := RegStatus.ACTIVE }]
    (by rfl)

/-! ### C3 — matcher ordering, stability, filtering -/

/-- Sorted non-increasing by score. -/
def SortedDesc (l : List TrendMatch) : Prop :=
  List.Pairwise (fun a b => b.score ≤ a.score) l

/-- Inserting permutes: the sorted insertion keeps exactly the
elements. -/
theorem insertDesc_perm (x : TrendMatch) (l : List TrendMatch) :
    (insertDesc x l).Perm (x :: l) := by
  induction l with
  | nil => exact List.Perm.refl _
  | cons y ys ih =>
    unfold insertDesc
    by_cases h : x.score ≤ y.score
    · rw [if_pos h]
      exact (ih.cons y).trans (List.Perm.swap x y ys)
    · rw [if_neg h]

/-- Sorted insertion preserves sortedness. -/
theorem insertDesc_sorted (x : TrendMatch) (l : List TrendMatch)
    (h : SortedDesc l) : SortedDesc (insertDesc x l) := by
  induction l with
  | nil => simp [insertDesc, SortedDesc]
  | cons y ys ih =>
    obtain ⟨hy, hys⟩ := List.pairwise_cons.mp h
    unfold insertDesc
    by_cases hxy : x.score ≤ y.score
    · rw [if_pos hxy]
      apply List.pairwise_cons.mpr
      refine ⟨?_, ih hys⟩
      intro z hz
      have hz2 := (insertDesc_perm x ys).mem_iff.mp hz
      rcases List.mem_cons.mp hz2 with rfl | hzys
      · exact hxy
      · exact hy z hzys
    · rw [if_neg hxy]
      push_neg at hxy
      apply List.pairwise_cons.mpr
      refine ⟨?_, h⟩
      intro z hz
      rcases List.mem_cons.mp hz with rfl | hzys
      · exact le_of_lt hxy
      · exact le_trans (hy z hzys) (le_of_lt hxy)

/-- Stability of one insertion: within each score class the inserted
element lands strictly after the elements already present. -/
theorem filter_insertDesc (x : TrendMatch) (l : List TrendMatch) (s : Nat)
    (hl : SortedDesc l) :
    (insertDesc x l).filter (fun m => m.score = s) =
      if x.score = s then l.filter (fun m => m.score = s) ++ [x]
      else l.filter (fun m => m.score = s) := by
  induction l with
  | nil =>
    unfold insertDesc
    by_cases h : x.score = s <;> simp [List.filter_cons, h]
  | cons y ys ih =>
    obtain ⟨hy, hys⟩ := List.pairwise_cons.mp hl
    unfold insertDesc
    by_cases hxy : x.score ≤ y.score
    · rw [if_pos hxy]
      rw [List.filter_cons, List.filter_cons]
      by_cases hys2 : y.score = s <;> by_cases hxs : x.score = s <;>
        simp [hys2, hxs, ih hys]
    · rw [if_neg hxy]
      push_neg at hxy
      by_cases hxs : x.score = s
      · have hnil : (y :: ys).filter (fun m => m.score = s) = [] := by
          rw [List.filter_eq_nil_iff]
          intro z hz
          have hzle : z.score ≤ y.score := by
            rcases List.mem_cons.mp hz with rfl | h2
            · exact le_refl _
            · exact hy z h2
          have hlt : z.score < x.score := lt_of_le_of_lt hzle hxy
          simp only [decide_eq_true_eq]
          omega
        rw [List.filter_cons]
        simp [hxs, hnil]
      · rw [List.filter_cons]
        simp [hxs]

/-- Stability of the whole fold. -/
theorem filter_sortFold (s : Nat) :
    ∀ (l acc : List TrendMatch), SortedDesc acc →
      ((l.foldl (fun a x => insertDesc x a) acc).filter (fun m => m.score = s)) =
        acc.filter (fun m => m.score = s) ++ l.filter (fun m => m.score = s) := by
  intro l
  induction l with
  | nil => intro acc h; simp
  | cons x xs ih =>
    intro acc h
    rw [List.foldl_cons, ih _ (insertDesc_sorted x acc h),
      filter_insertDesc x acc s h, List.filter_cons]
    by_cases hx : x.score = s <;> simp [hx]

/-- The sort is stable: each score class keeps its enumeration order. -/
theorem sortByScoreDesc_filter (l : List TrendMatch) (s : Nat) :
    (sortByScoreDesc l).filter (fun m => m.score = s) =
      l.filter (fun m => m.score = s) := by
  have := filter_sortFold s l [] (by simp [SortedDesc])
  simpa [sortByScoreDesc] using this

/-- The sort output is non-increasing in score. -/
theorem sortByScoreDesc_sorted (l : List TrendMatch) :
    SortedDesc (sortByScoreDesc l) := by
  have aux : ∀ (l acc : List TrendMatch), SortedDesc acc →
      SortedDesc (l.foldl (fun a x => insertDesc x a) acc) := by
    intro l
    induction l with
    | nil => intro acc h; simpa
    | cons x xs ih =>
      intro acc h
      rw [List.foldl_cons]
      exact ih _ (insertDesc_sorted x acc h)
  exact aux l [] (by simp [SortedDesc])

/-- The sort permutes its input. -/
theorem sortByScoreDesc_perm (l : List TrendMatch) :
    (sortByScoreDesc l).Perm l := by
  have aux : ∀ (l acc : List TrendMatch),
      (l.foldl (fun a x => insertDesc x a) acc).Perm (acc ++ l) := by
    intro l
    induction l with
    | nil => intro acc; simp
    | cons x xs ih =>
      intro acc
      rw [List.foldl_cons]
      refine (ih (insertDesc x acc)).trans ?_
      refine (List.Perm.append_right xs (insertDesc_perm x acc)).trans ?_
      exact List.perm_middle.symm
  simpa [sortByScoreDesc] using aux l []

/-- Every enumerated match for one trend has positive score. -/
theorem scoreTrendAgainst_pos (now : Int) (t : TrendingSearch) :
    ∀ (articles : List Article), ∀ m ∈ scoreTrendAgainst now t articles,
      0 < m.score := by
  intro articles
  induction articles with
  | nil => intro m hm; cases hm
  | cons a as ih =>
    intro m hm
    unfold scoreTrendAgainst at hm
    rw [List.foldr_cons] at hm
    by_cases h : calculateRelevanceScore now t a > 0
    · simp only [h, if_pos] at hm
      rcases List.mem_cons.mp hm with rfl | hm2
      · exact h
      · exact ih m hm2
    · simp only [h, if_neg] at hm
      exact ih m hm

/-- Every enumerated match has positive score. -/
theorem enumMatches_pos (now : Int) (trends : List TrendingSearch)
    (articles : List Article) :
    ∀ m ∈ enumMatches now trends articles, 0 < m.score := by
  induction trends with
  | nil => intro m hm; cases hm
  | cons t ts ih =>
    intro m hm
    unfold enumMatches at hm
    rw [List.foldr_cons] at hm
    rcases List.mem_append.mp hm with h1 | h2
    · exact scoreTrendAgainst_pos now t articles m h1
    · exact ih m h2

/-- No articles means no enumerated matches. -/
theorem enumMatches_articles_nil (now : Int) (trends : List TrendingSearch) :
    enumMatches now trends [] = [] := by
  induction trends with
  | nil => rfl
  | cons t ts ih =>
    unfold enumMatches at ih ⊢
    rw [List.foldr_cons, ih]
    rfl

/-- A concrete trending search for the matcher witness. -/
def sampleTrend : TrendingSearch :=
  { keyword := "elecciones 2025", traffic := "1M+", relatedQueries := [],
    articles := [] }

/-- C3: `matchWithTrends` returns a list sorted non-increasing by
score; the sort is stable — within every score class the output keeps
the relative order of the underlying (trend, then article)
enumeration; every returned match has score ≥ 1 (score-0 pairs are
filtered out); and an empty trend list or an empty article list yields
the empty list with no error (the function is total). -/
theorem matchWithTrends_sorted_stable_filtered (now : Int)
    (trends : List TrendingSearch) (articles : List Article) :
    List.Pairwise (fun a b => b.score ≤ a.score)
      (matchWithTrends now trends articles) ∧
    (∀ s : Nat,
      (matchWithTrends now trends articles).filter (fun m => m.score = s) =
        (enumMatches now trends articles).filter (fun m => m.score = s)) ∧
    (∀ m ∈ matchWithTrends now trends articles, 1 ≤ m.score) ∧
    (trends = [] → matchWithTrends now trends articles = []) ∧
    (articles = [] → matchWithTrends now trends articles = []) := by
  refine ⟨sortByScoreDesc_sorted _, fun s => sortByScoreDesc_filter _ s, ?_, ?_, ?_⟩
  · intro m hm
    exact enumMatches_pos now trends articles m
      ((sortByScoreDesc_perm _).mem_iff.mp hm)
  · intro h
    subst h
    rfl
  · intro h
    subst h
    rw [matchWithTrends, enumMatches_articles_nil]
    rfl

/-- C3 witness: the empty-trends and empty-articles branches at
concrete inputs, and positivity of the score of the one concrete match
the matcher produces. -/
theorem matchWithTrends_sorted_stable_filtered_witness :
    matchWithTrends 1700000000000 [] [sampleArticle] = [] ∧
    matchWithTrends 1700000000000 [sampleTrend] [] = [] ∧
    1 ≤ (⟨sampleTrend, sampleArticle, 10⟩ : TrendMatch).score := by
  refine ⟨(matchWithTrends_sorted_stable_filtered 1700000000000 [] [sampleArticle]).2.2.2.1 rfl,
    (matchWithTrends_sorted_stable_filtered 1700000000000 [sampleTrend] []).2.2.2.2 rfl,
    (matchWithTrends_sorted_stable_filtered 1700000000000 [sampleTrend] [sampleArticle]).2.2.1
      ⟨sampleTrend, sampleArticle, 10⟩ (by decide)⟩

/-! ### C5 — expiry sweep -/

/-- Whether the delegated platform removal succeeds for this entry. -/
def removalOk (env : PlatformEnv) (c : StoredCampaign) : Bool :=
  match env.removeOutcome c.result.resourceName with
  | Except.ok _ => true
  | Except.error _ => false

/-- The sweep's effective removal predicate: expiry instant passed,
status still ACTIVE, and the platform removal call succeeds. -/
def sweepRemoves (env : PlatformEnv) (now : Int) (c : StoredCampaign) : Bool :=
  decide (c.expiresAt < now) && decide (c.status = RegStatus.ACTIVE) &&
    removalOk env c

/-- With unique ids, looking an entry's id up finds that entry. -/
theorem find_id_of_nodup (st : Registry) (c : StoredCampaign)
    (hnd : (st.map (fun d => d.id)).Nodup) (hc : c ∈ st) :
    st.find? (fun d => d.id = c.id) = some c := by
  induction st with
  | nil => cases hc
  | cons d t ih =>
    rw [List.map_cons] at hnd
    obtain ⟨hd, ht⟩ := List.pairwise_cons.mp hnd
    rcases List.mem_cons.mp hc with rfl | hct
    · rw [List.find?_cons_of_pos _ (by simp)]
    · have hne : d.id ≠ c.id := fun he => hd c.id (List.mem_map_of_mem _ hct) he
      rw [List.find?_cons_of_neg _ (by simp [hne])]
      exact ih ht hct

/-- A sublist none of whose elements satisfies `p` survives
`eraseP p`. -/
theorem sublist_eraseP_of_none {p : StoredCampaign → Bool} :
    ∀ {l st : Registry}, l.Sublist st → (∀ x ∈ l, p x = false) →
      l.Sublist (st.eraseP p) := by
  intro l st hsub
  induction hsub with
  | slnil => intro _; exact List.nil_sublist _
  | @cons l st a hsub ih =>
    intro hnp
    rw [List.eraseP_cons]
    by_cases ha : p a
    · simp only [ha, cond_true]
      exact hsub
    · simp only [Bool.not_eq_true] at ha
      simp only [ha, cond_false]
      exact (ih hnp).cons a
  | @cons₂ l st a hsub ih =>
    intro hnp
    have hpa : p a = false := hnp a (List.mem_cons_self a l)
    rw [List.eraseP_cons]
    simp only [hpa, cond_false]
    exact (ih (fun x hx => hnp x (List.mem_cons_of_mem a hx))).cons₂ a

/-- The sweep loop invariant: iterating a snapshot sublist of the
registry (unique ids) removes exactly the snapshot entries the removal
predicate selects and counts them, leaving everything else in place and
in order. -/
theorem cleanupLoop_spec (env : PlatformEnv) (now : Int) :
    ∀ (l st : Registry) (n : Nat),
      l.Sublist st → ((st.map (fun d => d.id)).Nodup) →
      cleanupLoop env now l st n =
        (st.filter (fun c => !(sweepRemoves env now c && decide (c ∈ l))),
         n + l.countP (sweepRemoves env now)) := by
  intro l
  induction l with
  | nil =>
    intro st n _ _
    simp [cleanupLoop]
  | cons c rest ih =>
    intro st n hsub hnd
    have hcmem : c ∈ st := hsub.subset (List.mem_cons_self c rest)
    have hrest_sub : rest.Sublist st := (List.sublist_cons_self c rest).trans hsub
    have hrest_ne : ∀ x ∈ rest, x.id ≠ c.id := by
      have hlnd : ((c :: rest).map (fun d => d.id)).Nodup :=
        List.Nodup.sublist (hsub.map _) hnd
      rw [List.map_cons] at hlnd
      obtain ⟨hh, _⟩ := List.pairwise_cons.mp hlnd
      intro x hx he
      exact hh x.id (List.mem_map_of_mem _ hx) he.symm
    by_cases hP : c.expiresAt < now ∧ c.status = RegStatus.ACTIVE
    · have hfind : st.find? (fun d => d.id = c.id) = some c :=
        find_id_of_nodup st c hnd hcmem
      cases hOk : env.removeOutcome c.result.resourceName with
      | ok u =>
        have hS : sweepRemoves env now c = true := by
          simp [sweepRemoves, hP.1, hP.2, removalOk, hOk]
        have hrem : removeCampaign env st c.id = (Except.ok (), regDelete st c.id) := by
          simp [removeCampaign, regGet, hfind, hOk]
        have hloop : cleanupLoop env now (c :: rest) st n =
            cleanupLoop env now rest (regDelete st c.id) (n + 1) := by
          rw [cleanupLoop, if_pos hP, hrem]
        have hsub2 : rest.Sublist (regDelete st c.id) := by
          apply sublist_eraseP_of_none hrest_sub
          intro x hx
          simp [hrest_ne x hx]
        have hnd2 : ((regDelete st c.id).map (fun d => d.id)).Nodup :=
          List.Nodup.sublist ((List.eraseP_sublist st).map _) hnd
        obtain ⟨a, l₁, l₂, hl₁, hpa, hdecomp, herase⟩ :=
          List.exists_of_eraseP (p := fun d => decide (d.id = c.id)) hcmem (by simp)
        have haid : a.id = c.id := by simpa using hpa
        have hamem : a ∈ st := by
          rw [hdecomp]
          exact List.mem_append_right _ (List.mem_cons_self a l₂)
        have hac : a = c := List.inj_on_of_nodup_map hnd hamem hcmem haid
        subst hac
        have herase2 : regDelete st a.id = l₁ ++ l₂ := herase
        have hnid : a.id ∉ l₁.map (fun d => d.id) ++ l₂.map (fun d => d.id) := by
          have h2 := hnd
          rw [hdecomp, List.map_append, List.map_cons] at h2
          have hmid := List.nodup_middle.mp h2
          have h3 := (List.pairwise_cons.mp hmid).1
          intro hmem
          exact h3 a.id hmem rfl
        have hne1 : ∀ d ∈ l₁, d ≠ a := by
          rintro d hd rfl
          exact hnid (List.mem_append_left _ (List.mem_map_of_mem _ hd))
        have hne2 : ∀ d ∈ l₂, d ≠ a := by
          rintro d hd rfl
          exact hnid (List.mem_append_right _ (List.mem_map_of_mem _ hd))
        have hstate : st.filter (fun d => !(sweepRemoves env now d && decide (d ∈ a :: rest))) =
            (regDelete st a.id).filter (fun d => !(sweepRemoves env now d && decide (d ∈ rest))) := by
          rw [herase2, hdecomp, List.filter_append, List.filter_append, List.filter_cons]
          have hFc : (!(sweepRemoves env now a && decide (a ∈ a :: rest))) = false := by
            simp [hS]
          rw [hFc]
          simp only [Bool.false_eq_true, if_false]
          have hcong1 : l₁.filter (fun d => !(sweepRemoves env now d && decide (d ∈ a :: rest))) =
              l₁.filter (fun d => !(sweepRemoves env now d && decide (d ∈ rest))) := by
            apply List.filter_congr
            intro d hd
            simp [List.mem_cons, hne1 d hd]
          have hcong2 : l₂.filter (fun d => !(sweepRemoves env now d && decide (d ∈ a :: rest))) =
              l₂.filter (fun d => !(sweepRemoves env now d && decide (d ∈ rest))) := by
            apply List.filter_congr
            intro d hd
            simp [List.mem_cons, hne2 d hd]
          rw [hcong1, hcong2]
        rw [hloop, ih _ (n + 1) hsub2 hnd2]
        simp only [Prod.mk.injEq]
        refine ⟨hstate.symm, ?_⟩
        simp [List.countP_cons, hS]
        omega
      | error e =>
        have hS : sweepRemoves env now c = false := by
          simp [sweepRemoves, removalOk, hOk]
        have hrem : removeCampaign env st c.id = (Except.error e, st) := by
          simp [removeCampaign, regGet, hfind, hOk]
        have hloop : cleanupLoop env now (c :: rest) st n =
            cleanupLoop env now rest st n := by
          rw [cleanupLoop, if_pos hP, hrem]
        rw [hloop, ih st n hrest_sub hnd]
        simp only [Prod.mk.injEq]
        constructor
        · apply List.filter_congr
          intro d hd
          by_cases hdc : d = c
          · subst hdc
            simp [hS]
          · simp [List.mem_cons, hdc]
        · simp [List.countP_cons, hS]
    · have hS : sweepRemoves env now c = false := by
        rcases not_and_or.mp hP with h | h <;> simp [sweepRemoves, h]
      have hloop : cleanupLoop env now (c :: rest) st n =
          cleanupLoop env now rest st n := by
        rw [cleanupLoop, if_neg hP]
      rw [hloop, ih st n hrest_sub hnd]
      simp only [Prod.mk.injEq]
      constructor
      · apply List.filter_congr
        intro d hd
        by_cases hdc : d = c
        · subst hdc
          simp [hS]
        · simp [List.mem_cons, hdc]
      · simp [List.countP_cons, hS]

/-- A platform environment in which every delegated call succeeds. -/
def allOkPlatformEnv : PlatformEnv :=
  { pauseOutcome := fun _ => Except.ok ()
    enableOutcome := fun _ => Except.ok ()
    removeOutcome := fun _ => Except.ok () }

/-- An expired ACTIVE campaign (expiry 10, swept at `now = 1000`). -/
def expiredA : StoredCampaign :=
  { id := "c1", articleId := "a1", trendKeyword := "t1"
    result := { campaignId := "c1", adGroupId := "g1",
                status := CampaignStatus.PAUSED, resourceName := "rn/c1" }
    createdAt := 0, expiresAt := 10, status := RegStatus.ACTIVE }

/-- A second expired ACTIVE campaign. -/
def expiredB : StoredCampaign :=
  { id := "c2", articleId := "a2", trendKeyword := "t2"
    result := { campaignId := "c2", adGroupId := "g2",
                status := CampaignStatus.PAUSED, resourceName := "rn/c2" }
    createdAt := 0, expiresAt := 20, status := RegStatus.ACTIVE }

/-- A campaign expiring in the future. -/
def futureC : StoredCampaign :=
  { id := "c3", articleId := "a3", trendKeyword := "t3"
    result := { campaignId := "c3", adGroupId := "g3",
                status := CampaignStatus.PAUSED, resourceName := "rn/c3" }
    createdAt := 0, expiresAt := 999999, status := RegStatus.ACTIVE }

/-- C5: the cleanup sweep removes exactly the stored campaigns whose
expiry instant has passed, whose status is ACTIVE and whose platform
removal succeeds, returns the count actually cleaned, and isolates
per-entry failures — a failing removal leaves its entry in place
without aborting the sweep or incrementing the count.  In particular,
for *any* insertion order of two expired ACTIVE campaigns and one
future one, the sweep removes exactly the two expired ones, returns 2
and leaves the future one untouched. -/
theorem cleanup_sweep_exact :
    (∀ (env : PlatformEnv) (now : Int) (st : Registry),
      ((st.map (fun d => d.id)).Nodup) →
      cleanupExpiredCampaigns env now st =
        (st.filter (fun c => !(sweepRemoves env now c)),
         st.countP (sweepRemoves env now))) ∧
    (∀ l : Registry, l.Perm [expiredA, expiredB, futureC] →
      cleanupExpiredCampaigns allOkPlatformEnv 1000 l = ([futureC], 2)) := by
  have hgen : ∀ (env : PlatformEnv) (now : Int) (st : Registry),
      ((st.map (fun d => d.id)).Nodup) →
      cleanupExpiredCampaigns env now st =
        (st.filter (fun c => !(sweepRemoves env now c)),
         st.countP (sweepRemoves env now)) := by
    intro env now st hnd
    rw [cleanupExpiredCampaigns, cleanupLoop_spec env now st st 0 (List.Sublist.refl st) hnd]
    simp only [Nat.zero_add]
    congr 1
    apply List.filter_congr
    intro d hd
    simp [hd]
  refine ⟨hgen, ?_⟩
  intro l hperm
  have hnd : (l.map (fun d => d.id)).Nodup :=
    ((hperm.map (fun d => d.id)).nodup_iff).mpr (by decide)
  rw [hgen allOkPlatformEnv 1000 l hnd]
  simp only [Prod.mk.injEq]
  constructor
  · apply List.perm_singleton.mp
    have hpf := hperm.filter (fun c => !(sweepRemoves allOkPlatformEnv 1000 c))
    rw [show ([expiredA, expiredB, futureC] : Registry).filter
        (fun c => !(sweepRemoves allOkPlatformEnv 1000 c)) = [futureC] from rfl] at hpf
    exact hpf
  · rw [List.Perm.countP_eq _ hperm]
    rfl

/-- C5 witness: the general sweep characterization at a concrete
registry, and the three-campaign scenario at one concrete insertion
order. -/
theorem cleanup_sweep_exact_witness :
    cleanupExpiredCampaigns allOkPlatformEnv 1000 [expiredA, futureC] =
      (([expiredA, futureC] : Registry).filter
        (fun c => !(sweepRemoves allOkPlatformEnv 1000 c)),
       ([expiredA, futureC] : Registry).countP
        (sweepRemoves allOkPlatformEnv 1000)) ∧
    cleanupExpiredCampaigns allOkPlatformEnv 1000 [expiredB, futureC, expiredA] =
      ([futureC], 2) :=
  ⟨cleanup_sweep_exact.1 allOkPlatformEnv 1000 [expiredA, futureC] (by decide),
   cleanup_sweep_exact.2 [expiredB, futureC, expiredA] (by decide)⟩
